import Mathlib

/-!
Verification of the benchmark execution and measurement protocol of the
`reductstore/benchmark` repository, as a shallow embedding in Lean.

Conventions of the embedding:
* Python `bytes` is `List Nat` (each byte a number below 256).
* Python `float` timing values never influence control flow; they are modelled
  exactly by `ℚ` (rationals), the falsy value `0.0` being `(0 : ℚ)`.
* `os.urandom` is modelled by an explicit random stream `rng : Nat → Nat`
  supplied by the environment; it returns one byte per index.
* Fallible calls against an external backend return `Except` values; the
  backend itself is a state machine supplied as a parameter.
* File contents are modelled structurally: a CSV file is a list of lines,
  a line either the header string or a structured data row; `None` stands
  for "the path does not exist yet".
-/

set_option autoImplicit false

namespace Benchmark

/-- A blob: an immutable byte sequence (`bytes` in the source). -/
abbrev Blob := List Nat

/-- `os.urandom(size)`: `size` bytes drawn from the random stream `rng`. -/
def osUrandom (rng : Nat → Nat) (size : Nat) : Blob :=
  (List.range size).map (fun i => rng i % 256)

/-- `utils.generate_blob`: `return os.urandom(size)`. -/
def generate_blob (rng : Nat → Nat) (size : Nat) : Blob :=
  osUrandom rng size

/-! ## Result recorder (`utils.save_results`) -/

/-- A rendered CSV field: either the literal sentinel `N/A` or a number. -/
inductive Field where
  | na : Field
  | num : ℚ → Field
  | int : ℤ → Field
  deriving DecidableEq, Repr

/-- One data row of a result file:
`f"{write_time or 'N/A'},{read_time or 'N/A'},{blob_size},{batch_size}"`. -/
structure Row where
  wt : Field
  rt : Field
  blobSize : Field
  batchSize : Field
  deriving DecidableEq, Repr

/-- A line of a result file: the header line (with its literal text) or a row. -/
inductive Line where
  | header : String → Line
  | row : Row → Line
  deriving DecidableEq, Repr

/-- The literal header written on first creation of a result file. -/
def headerText : String := "write_time,read_time,blob_size,batch_size"

/-- Python `x or 'N/A'` on an optional float: `None` and `0.0` are falsy and
render the sentinel; any other float renders itself. -/
def renderTime (x : Option ℚ) : Field :=
  match x with
  | none => Field.na
  | some q => if q = 0 then Field.na else Field.num q

/-- `itertools.zip_longest(xs, ys)` with the default fill value `None`. -/
def zipLongest (xs ys : List ℚ) : List (Option ℚ × Option ℚ) :=
  match xs, ys with
  | [], [] => []
  | x :: xs, [] => (some x, none) :: zipLongest xs []
  | [], y :: ys => (none, some y) :: zipLongest [] ys
  | x :: xs, y :: ys => (some x, some y) :: zipLongest xs ys

/-- The arguments of one `save_results` call that determine the rows written. -/
structure RecCall where
  blobSize : ℤ
  batchSize : ℤ
  write_times : List ℚ
  read_times : List ℚ
  deriving DecidableEq, Repr

/-- The data rows one `save_results` call appends: one per `zip_longest` pair. -/
def rowsOf (c : RecCall) : List Line :=
  (zipLongest c.write_times c.read_times).map
    (fun p => Line.row ⟨renderTime p.1, renderTime p.2,
                        Field.int c.blobSize, Field.int c.batchSize⟩)

/-- `utils.save_results` acting on the contents of its target file.
`none` models a path that does not exist: the file is created and the header
written first (`write_header = not os.path.exists(path)`); otherwise the rows
are appended (mode `"a"`) after the existing content. -/
def save_results (st : Option (List Line)) (c : RecCall) : List Line :=
  match st with
  | none => Line.header headerText :: rowsOf c
  | some ls => ls ++ rowsOf c

/-- A sequence of `save_results` calls against the same path, in call order. -/
def runCalls (st : Option (List Line)) (cs : List RecCall) : Option (List Line) :=
  match cs with
  | [] => st
  | c :: cs => runCalls (some (save_results st c)) cs

/-! ## Association-list primitives shared by the backend models -/

/-- First-match association lookup (Minio object fetch, GridFS `fs.get`). -/
def assocFind {α β : Type} [DecidableEq α] (k : α) : List (α × β) → Option β
  | [] => none
  | (k', v) :: t => if k' = k then some v else assocFind k t

/-- Key-overwriting insert: Minio `put_object` on an existing object name, and
an InfluxDB point at an already-used (measurement, time) coordinate, both
replace the stored value; a fresh key is appended. -/
def upsert {α β : Type} [DecidableEq α] (k : α) (v : β) : List (α × β) → List (α × β)
  | [] => [(k, v)]
  | (k', v') :: t => if k' = k then (k, v) :: t else (k', v') :: upsert k v t

/-- One comparison step of a maximal-timestamp scan. -/
def latestStep {β : Type} (acc : Option (ℚ × β)) (r : ℚ × β) : Option (ℚ × β) :=
  match acc with
  | none => some r
  | some a => if a.1 < r.1 then some r else some a

/-- The record with maximal key among a list of (key, value) pairs, keeping the
earlier record on ties (`ORDER BY time DESC LIMIT 1`, `sort("time", -1)`,
Flux `last()`); `none` on an empty list. -/
def latest {β : Type} (l : List (ℚ × β)) : Option (ℚ × β) :=
  l.foldl latestStep none

/-! ## TimescaleDB adapter (`systems/timescaledb.py`)

State: the rows of the `data` table, in insertion order. -/

/-- `datetime.fromtimestamp(timestamp_ns / 1e9)`: the nanosecond timestamp as
seconds. Modelled by exact rational division. -/
def tsSeconds (ns : ℤ) : ℚ := (ns : ℚ) / 1000000000

/-- The `data` table: (`time`, `data`) rows in insertion order. -/
structure TimescaleState where
  rows : List (ℚ × Blob)
  deriving DecidableEq, Repr

/-- `TimescaleDBSystem.write_data`: `INSERT INTO data (time, data) VALUES …`. -/
def timescaleWrite (s : TimescaleState) (data : Blob) (timestamp_ns : ℤ) :
    TimescaleState :=
  ⟨s.rows ++ [(tsSeconds timestamp_ns, data)]⟩

/-- `TimescaleDBSystem.read_last`: `SELECT data FROM data ORDER BY time DESC
LIMIT 1` then `fetchone()[0]`; `none` models the `TypeError` raised when the
table is empty (`fetchone()` returns `None`). -/
def timescaleReadLast (s : TimescaleState) : Option Blob :=
  (latest s.rows).map (fun r => r.2)

/-- `TimescaleDBSystem.read_batch`: `SELECT data FROM data WHERE time >= start`. -/
def timescaleReadBatch (s : TimescaleState) (start_ns : ℤ) : List Blob :=
  (s.rows.filter (fun r => tsSeconds start_ns ≤ r.1)).map (fun r => r.2)

/-! ## MongoDB adapter (`systems/mongodb.py`)

State: the GridFS blob store plus the `data` time-series collection. -/

/-- GridFS files keyed by object id, the `data` collection of
(`time`, `blob_id`) documents, and the next fresh GridFS id. -/
structure MongoState where
  fsFiles : List (ℕ × Blob)
  docs : List (ℚ × ℕ)
  nextId : ℕ
  deriving DecidableEq, Repr

/-- `MongoDBSystem.write_data`: `fs.put(data, …)` stores the blob under a fresh
id, then `data.insert_one({"time": …, "blob_id": …})` records it. -/
def mongoWrite (s : MongoState) (data : Blob) (timestamp_ns : ℤ) : MongoState :=
  ⟨s.fsFiles ++ [(s.nextId, data)],
   s.docs ++ [(tsSeconds timestamp_ns, s.nextId)],
   s.nextId + 1⟩

/-- `MongoDBSystem.read_last`: if `count_documents > 0`, take the document with
maximal `time` (`find().sort("time", -1).limit(1)`) and read its GridFS blob
(`none` models the GridFS error on a dangling id); else return `b""`. -/
def mongoReadLast (s : MongoState) : Option Blob :=
  if s.docs = [] then some []
  else (latest s.docs).bind (fun d => assocFind d.2 s.fsFiles)

/-! ## InfluxDB+Minio adapter (`systems/system_two.py`)

State: the Minio bucket (objects keyed by name) and the InfluxDB bucket
(points keyed by their nanosecond time; the stored field value is the Minio
object name). -/

structure SystemTwoState where
  minio : List (String × Blob)
  influx : List (ℤ × String)
  deriving DecidableEq, Repr

/-- `SystemTwo.write_data`: `put_object(MINIO_BUCKET, str(timestamp), data)`
then an InfluxDB point at `time=timestamp` whose field value is the object
name. Both stores overwrite on an existing key. -/
def systemTwoWrite (s : SystemTwoState) (data : Blob) (timestamp : ℤ) :
    SystemTwoState :=
  ⟨upsert (toString timestamp) data s.minio,
   upsert timestamp (toString timestamp) s.influx⟩

/-- `SystemTwo.read_last` at current time `now` (ns): the Flux query
`range(start: -10s) |> last()` keeps points with time in
`[now - 10s, now)` and takes the one with maximal time; its field value names
the Minio object to fetch. `none` models `ValueError` (no records) or a
failing Minio fetch. -/
def systemTwoReadLast (s : SystemTwoState) (now : ℤ) : Option Blob :=
  let window := s.influx.filter (fun p => now - 10000000000 ≤ p.1 ∧ p.1 < now)
  (latest (window.map (fun p => ((p.1 : ℚ), p.2)))).bind
    (fun r => assocFind r.2 s.minio)

/-- `SystemTwo.cleanup`: list all Minio objects, remove each listed object,
remove the Minio bucket, then delete the InfluxDB bucket. The enumeration goes
over the Minio store itself, never over the InfluxDB index. -/
def systemTwoCleanup (s : SystemTwoState) : SystemTwoState :=
  let objects := s.minio.map (fun o => o.1)
  let minioAfter := objects.foldl
    (fun st name => st.filter (fun o => o.1 ≠ name)) s.minio
  ⟨minioAfter, []⟩

/-- `InfluxDBMinioSystem.cleanup`'s Minio phase (`systems/influxdb_minio.py`):
`while True:` list the bucket's objects; stop when none are left; otherwise
remove each listed object and repeat. The recursion is fuelled; one pass
already empties the store, so any positive fuel suffices. -/
def minioDrain : ℕ → List (String × Blob) → List (String × Blob)
  | 0, st => st
  | fuel + 1, st =>
    if st.isEmpty then st
    else
      minioDrain fuel
        ((st.map (fun o => o.1)).foldl
          (fun acc name => acc.filter (fun o => o.1 ≠ name)) st)

/-! ## Benchmark runner (`benchmark.py`)

The adapter under benchmark is an abstract state machine over a state type
`σ`; every operation may fail with a backend error code (an exception raised
by the vendor client). Wall-clock durations measured by `write_data`,
`read_last` and `read_batch` wrappers do not influence control flow and are
supplied as environment streams of rationals. -/

/-- The five-operation adapter contract (`systems/base_system.py`), as a state
machine. Backend failures carry an abstract error code. -/
structure SysM (σ : Type) where
  write : σ → Blob → ℤ → Except ℕ σ
  readLast : σ → Except ℕ (Blob × σ)
  readBatch : σ → ℤ → Except ℕ (List Blob × σ)
  cleanup : σ → Except ℕ σ

/-- The kinds of exception a benchmark run can terminate with. Distinct
constructors model distinct Python exception classes: `AssertionError` from a
failed `assert`, `IndexError` from `timestamps[0]` on an empty list,
`TypeError` from a bad keyword argument, and any exception raised by the
backend client. -/
inductive RunErr where
  | assertionFailed : RunErr
  | indexOutOfRange : RunErr
  | typeMismatch : RunErr
  | backend : ℕ → RunErr
  deriving DecidableEq, Repr

/-- The warmup loop of `benchmark_system`: for each iteration take a fresh
timestamp (`ts i`), generate a blob, write it, `read_last`, and
`assert result == blob`. Returns the adapter state reached together with the
outcome; on failure the state is the one at the failing call. -/
def warmupFrom {σ : Type} (sys : SysM σ) (blobSize : ℕ) (rng : ℕ → ℕ → ℕ)
    (ts : ℕ → ℤ) : ℕ → ℕ → σ → σ × Except RunErr Unit
  | _, 0, s => (s, Except.ok ())
  | i, n + 1, s =>
    let timestamp := ts i
    let blob := generate_blob (rng i) blobSize
    match sys.write s blob timestamp with
    | Except.error e => (s, Except.error (RunErr.backend e))
    | Except.ok s1 =>
      match sys.readLast s1 with
      | Except.error e => (s1, Except.error (RunErr.backend e))
      | Except.ok (result, s2) =>
        if result = blob then warmupFrom sys blobSize rng ts (i + 1) n s2
        else (s2, Except.error RunErr.assertionFailed)

/-- The single-item write/read loop: per iteration generate a blob, take a
timestamp, time a write, time a `read_last`, `assert blob == result`, and
append the measured times and the timestamp to the in-memory sequences. -/
def singleFrom {σ : Type} (sys : SysM σ) (blobSize : ℕ) (rng : ℕ → ℕ → ℕ)
    (ts : ℕ → ℤ) (wtm rtm : ℕ → ℚ) :
    ℕ → ℕ → σ → List ℚ → List ℚ → List ℤ →
    σ × Except RunErr Unit × List ℚ × List ℚ × List ℤ
  | _, 0, s, wl, rl, tl => (s, Except.ok (), wl, rl, tl)
  | i, n + 1, s, wl, rl, tl =>
    let blob := generate_blob (rng i) blobSize
    let timestamp := ts i
    match sys.write s blob timestamp with
    | Except.error e => (s, Except.error (RunErr.backend e), wl, rl, tl)
    | Except.ok s1 =>
      match sys.readLast s1 with
      | Except.error e => (s1, Except.error (RunErr.backend e), wl, rl, tl)
      | Except.ok (result, s2) =>
        if blob = result then
          singleFrom sys blobSize rng ts wtm rtm (i + 1) n s2
            (wl ++ [wtm i]) (rl ++ [rtm i]) (tl ++ [timestamp])
        else (s2, Except.error RunErr.assertionFailed, wl, rl, tl)

/-- The batch-read loop: per trial evaluate `timestamps[0]` (an `IndexError`
when the list is empty happens before `read_batch` is invoked), time a
`read_batch`, and `assert len(result) == batch_size`. The last component
counts how many `read_batch` calls were actually issued. -/
def batchFrom {σ : Type} (sys : SysM σ) (batchSize : ℕ) (btm : ℕ → ℚ)
    (timestamps : List ℤ) :
    ℕ → ℕ → σ → List ℚ → σ × Except RunErr (List ℚ) × ℕ
  | _, 0, s, acc => (s, Except.ok acc, 0)
  | i, n + 1, s, acc =>
    match timestamps.head? with
    | none => (s, Except.error RunErr.indexOutOfRange, 0)
    | some t0 =>
      match sys.readBatch s t0 with
      | Except.error e => (s, Except.error (RunErr.backend e), 1)
      | Except.ok (result, s1) =>
        if result.length = batchSize then
          let r := batchFrom sys batchSize btm timestamps (i + 1) n s1 (acc ++ [btm i])
          (r.1, r.2.1, r.2.2 + 1)
        else (s1, Except.error RunErr.assertionFailed, 1)

/-- The formal parameters of `utils.save_results`. -/
def saveResultsParams : List String :=
  ["filename", "directory", "blob_size", "batch_size",
   "write_times", "read_times", "quiet"]

/-- The keyword arguments `benchmark_system` passes in its first
`save_results(...)` call (the `read_write` file). -/
def saveCallKwargsRW : List String :=
  ["filename", "directory", "blob_size", "batch_size",
   "write_times", "read_times", "verbose"]

/-- The keyword arguments `benchmark_system` passes in its second
`save_results(...)` call (the `batch_read` file). -/
def saveCallKwargsBR : List String :=
  ["filename", "directory", "blob_size", "batch_size",
   "read_times", "verbose"]

/-- Python keyword binding of a `save_results` call: a keyword that is not a
formal parameter raises `TypeError` before the function body runs; otherwise
the recorder appends its rows. -/
def callSaveResults (kwargs : List String) (st : Option (List Line))
    (c : RecCall) : Except RunErr (List Line) :=
  if kwargs.all (fun k => saveResultsParams.contains k) then
    Except.ok (save_results st c)
  else Except.error RunErr.typeMismatch

/-- Everything `benchmark_system` produces. -/
structure BodyOut (σ : Type) where
  sEnd : σ
  result : Except RunErr Unit
  fileRW : Option (List Line)
  fileBR : Option (List Line)
  readBatchCalls : ℕ
  deriving Repr

/-- The `try` body of `benchmark_system`: warmup, single-item loop, batch-read
loop, then the two `save_results` calls. `fRW` and `fBR` are the contents of
the `{system}_read_write.csv` and `{system}_batch_read.csv` files before the
run. The verbose-only printing (including the verbose-only average
computation) has no effect on state and is not modelled. -/
def benchmarkBody {σ : Type} (sys : SysM σ) (blob_size batch_size batch_reads
    warmups : ℕ) (wrng brng : ℕ → ℕ → ℕ) (wts bts : ℕ → ℤ)
    (wtm rtm btm : ℕ → ℚ) (s0 : σ) (fRW fBR : Option (List Line)) :
    BodyOut σ :=
  match warmupFrom sys blob_size wrng wts 0 warmups s0 with
  | (s1, Except.error e) => ⟨s1, Except.error e, fRW, fBR, 0⟩
  | (s1, Except.ok ()) =>
    match singleFrom sys blob_size brng bts wtm rtm 0 batch_size s1 [] [] [] with
    | (s2, Except.error e, _, _, _) => ⟨s2, Except.error e, fRW, fBR, 0⟩
    | (s2, Except.ok (), write_times, read_times, timestamps) =>
      match batchFrom sys batch_size btm timestamps 0 batch_reads s2 [] with
      | (s3, Except.error e, n) => ⟨s3, Except.error e, fRW, fBR, n⟩
      | (s3, Except.ok batch_read_times, n) =>
        match callSaveResults saveCallKwargsRW fRW
            ⟨(blob_size : ℤ), 1, write_times, read_times⟩ with
        | Except.error e => ⟨s3, Except.error e, fRW, fBR, n⟩
        | Except.ok fRW' =>
          match callSaveResults saveCallKwargsBR fBR
              ⟨(blob_size : ℤ), (batch_size : ℤ), [], batch_read_times⟩ with
          | Except.error e => ⟨s3, Except.error e, some fRW', fBR, n⟩
          | Except.ok fBR' =>
            ⟨s3, Except.ok (), some fRW', some fBR', n⟩

/-- The observable outcome of a full `benchmark_system` call. -/
structure RunOut (σ : Type) where
  result : Except RunErr Unit
  sEnd : σ
  fileRW : Option (List Line)
  fileBR : Option (List Line)
  readBatchCalls : ℕ
  cleanupCalls : ℕ
  deriving Repr

/-- `benchmark_system`: the `try` body followed by `finally: await
system.cleanup()`. The cleanup call is not guarded: per Python semantics an
exception raised inside the `finally` block propagates and replaces any
in-flight exception from the body. -/
def benchmark_system {σ : Type} (sys : SysM σ) (blob_size batch_size
    batch_reads warmups : ℕ) (wrng brng : ℕ → ℕ → ℕ) (wts bts : ℕ → ℤ)
    (wtm rtm btm : ℕ → ℚ) (s0 : σ) (fRW fBR : Option (List Line)) :
    RunOut σ :=
  let b := benchmarkBody sys blob_size batch_size batch_reads warmups
    wrng brng wts bts wtm rtm btm s0 fRW fBR
  { result :=
      match sys.cleanup b.sEnd with
      | Except.error e => Except.error (RunErr.backend e)
      | Except.ok _ => b.result
    sEnd :=
      match sys.cleanup b.sEnd with
      | Except.error _ => b.sEnd
      | Except.ok s' => s'
    fileRW := b.fileRW
    fileBR := b.fileBR
    readBatchCalls := b.readBatchCalls
    cleanupCalls := 1 }

/-! ## Orchestrator (`benchmark.py`, `main`) -/

/-- How far `main` gets before its first adapter construction. -/
inductive MainOutcome where
  | maxOfEmptyList : MainOutcome
  | insufficientSpace : MainOutcome
  | ran : ℕ → MainOutcome
  deriving DecidableEq, Repr

/-- Python `max(blob_sizes)`: `ValueError` on an empty list. -/
def pyMax (l : List ℤ) : Option ℤ :=
  match l with
  | [] => none
  | x :: xs => some (xs.foldl max x)

/-- The prefix of `main` up to its disk-space gate: it computes
`max(blob_sizes) * (batch_size + warmups)`, reads the available space, and
returns before constructing any adapter when
`available - required < 2**30`; otherwise it constructs two adapters
(`SystemOne`, `SystemTwo`) per blob size and benchmarks each. The loop bodies
after the gate are abstracted to the count of adapters constructed, which is
all the space-check claims observe. -/
def main (blob_sizes : List ℤ) (batch_size warmups available : ℤ) :
    MainOutcome :=
  match pyMax blob_sizes with
  | none => MainOutcome.maxOfEmptyList
  | some m =>
    if available - m * (batch_size + warmups) < 2 ^ 30 then
      MainOutcome.insufficientSpace
    else
      MainOutcome.ran (2 * blob_sizes.length)

/-- Adapters constructed in each outcome: the insufficient-space return happens
before any construction. -/
def adaptersConstructed : MainOutcome → ℕ
  | MainOutcome.maxOfEmptyList => 0
  | MainOutcome.insufficientSpace => 0
  | MainOutcome.ran n => n

/-! ## Concrete adapters used to exercise the runner theorems -/

/-- A faithful in-memory adapter: an append-only log of (timestamp, blob);
`read_last` returns the most recently written blob, `read_batch` every blob
with timestamp at or after the bound, `cleanup` drops everything. -/
def memSys : SysM (List (ℤ × Blob)) where
  write := fun s b t => Except.ok (s ++ [(t, b)])
  readLast := fun s =>
    match s.getLast? with
    | some r => Except.ok (r.2, s)
    | none => Except.error 0
  readBatch := fun s t =>
    Except.ok ((s.filter (fun r => t ≤ r.1)).map (fun r => r.2), s)
  cleanup := fun _ => Except.ok []

/-- An adapter whose every storage call fails with backend error 7 and whose
cleanup fails with backend error 9. -/
def failSys : SysM Unit where
  write := fun _ _ _ => Except.error 7
  readLast := fun _ => Except.error 7
  readBatch := fun _ _ => Except.error 7
  cleanup := fun _ => Except.error 9

/-- An adapter whose `read_batch` always returns four (empty) blobs. -/
def fourSys : SysM Unit where
  write := fun s _ _ => Except.ok s
  readLast := fun s => Except.ok ([], s)
  readBatch := fun s _ => Except.ok ([[], [], [], []], s)
  cleanup := fun s => Except.ok s

/-- An adapter whose `read_batch` always returns five (empty) blobs. -/
def fiveSys : SysM Unit where
  write := fun s _ _ => Except.ok s
  readLast := fun s => Except.ok ([], s)
  readBatch := fun s _ => Except.ok ([[], [], [], [], []], s)
  cleanup := fun s => Except.ok s

/-! ## Helper lemmas -/

theorem runCalls_some (cs : List RecCall) :
    ∀ ls : List Line, runCalls (some ls) cs = some (ls ++ (cs.map rowsOf).flatten) := by
  induction cs with
  | nil => intro ls; simp [runCalls]
  | cons c cs ih =>
    intro ls
    simp only [runCalls, save_results, ih, List.map_cons, List.flatten_cons,
      List.append_assoc]

theorem zipLongest_get? (xs : List ℚ) : ∀ (ys : List ℚ) (i : ℕ),
    (zipLongest xs ys).get? i =
      if i < max xs.length ys.length then some (xs.get? i, ys.get? i)
      else none := by
  induction xs with
  | nil =>
    intro ys
    induction ys with
    | nil => intro i; simp [zipLongest]
    | cons y ys ihy =>
      intro i
      cases i with
      | zero => simp [zipLongest]
      | succ j =>
        simp only [zipLongest, List.get?, ihy j, List.length_nil,
          List.length_cons, Nat.zero_max, Nat.succ_lt_succ_iff]
  | cons x xs ihx =>
    intro ys i
    cases ys with
    | nil =>
      cases i with
      | zero => simp [zipLongest]
      | succ j =>
        simp only [zipLongest, List.get?, ihx [] j, List.length_nil,
          List.length_cons, Nat.max_zero, Nat.succ_lt_succ_iff]
    | cons y ys =>
      cases i with
      | zero => simp [zipLongest]
      | succ j =>
        simp only [zipLongest, List.get?, ihx ys j, List.length_cons,
          Nat.succ_max_succ, Nat.succ_lt_succ_iff]

theorem renderTime_eq_na (x : Option ℚ) :
    renderTime x = Field.na ↔ (x = none ∨ x = some 0) := by
  cases x with
  | none => simp [renderTime]
  | some q =>
    by_cases h : q = 0 <;> simp [renderTime, h]

theorem renderTime_nonzero (q : ℚ) (h : q ≠ 0) :
    renderTime (some q) = Field.num q := by
  simp [renderTime, h]

theorem foldl_latestStep_mem {β : Type} :
    ∀ (l : List (ℚ × β)) (acc : Option (ℚ × β)) (a : ℚ × β),
      l.foldl latestStep acc = some a → acc = some a ∨ a ∈ l := by
  intro l
  induction l with
  | nil => intro acc a h; exact Or.inl h
  | cons x l ih =>
    intro acc a h
    rcases ih (latestStep acc x) a h with h1 | h1
    · cases acc with
      | none =>
        right
        simp only [latestStep] at h1
        cases h1
        exact List.mem_cons_self x l
      | some b =>
        simp only [latestStep] at h1
        by_cases hb : b.1 < x.1
        · rw [if_pos hb] at h1
          cases h1
          right
          exact List.mem_cons_self x l
        · rw [if_neg hb] at h1
          exact Or.inl h1
    · right
      exact List.mem_cons_of_mem x h1

theorem latest_append_gt {β : Type} (l : List (ℚ × β)) (t : ℚ) (b : β)
    (h : ∀ p ∈ l, p.1 < t) : latest (l ++ [(t, b)]) = some (t, b) := by
  unfold latest
  rw [List.foldl_append]
  cases hl : l.foldl latestStep none with
  | none => rfl
  | some a =>
    have ha : a ∈ l := by
      rcases foldl_latestStep_mem l none a hl with h1 | h1
      · cases h1
      · exact h1
    simp [latestStep, h a ha]

theorem assocFind_append_fresh {α β : Type} [DecidableEq α]
    (l : List (α × β)) (k : α) (v : β) (h : ∀ p ∈ l, p.1 ≠ k) :
    assocFind k (l ++ [(k, v)]) = some v := by
  induction l with
  | nil => simp [assocFind]
  | cons p l ih =>
    have hp : p.1 ≠ k := h p (List.mem_cons_self p l)
    simp only [List.cons_append, assocFind, if_neg hp]
    exact ih (fun q hq => h q (List.mem_cons_of_mem p hq))

theorem upsert_fresh {α β : Type} [DecidableEq α]
    (l : List (α × β)) (k : α) (v : β) (h : ∀ p ∈ l, p.1 ≠ k) :
    upsert k v l = l ++ [(k, v)] := by
  induction l with
  | nil => rfl
  | cons p l ih =>
    have hp : p.1 ≠ k := h p (List.mem_cons_self p l)
    simp only [upsert, if_neg hp, List.cons_append, List.cons.injEq, true_and]
    exact ih (fun q hq => h q (List.mem_cons_of_mem p hq))

theorem foldl_remove_covered {β : Type} :
    ∀ (names : List String) (st : List (String × β)),
      (∀ o ∈ st, o.1 ∈ names) →
      names.foldl (fun acc name => acc.filter (fun o => o.1 ≠ name)) st = [] := by
  intro names
  induction names with
  | nil =>
    intro st h
    cases st with
    | nil => rfl
    | cons o st => exact absurd (h o (List.mem_cons_self o st)) (by simp)
  | cons n ns ih =>
    intro st h
    simp only [List.foldl_cons]
    apply ih
    intro o ho
    have hmem := List.mem_filter.mp ho
    have h1 : o.1 ∈ n :: ns := h o hmem.1
    have h2 : o.1 ≠ n := by simpa using hmem.2
    rcases List.mem_cons.mp h1 with h3 | h3
    · exact absurd h3 h2
    · exact h3

theorem remove_all_self {β : Type} (st : List (String × β)) :
    (st.map (fun o => o.1)).foldl
      (fun acc name => acc.filter (fun o => o.1 ≠ name)) st = [] := by
  apply foldl_remove_covered
  intro o ho
  exact List.mem_map.mpr ⟨o, ho, rfl⟩

theorem minioDrain_nil (fuel : ℕ) : minioDrain fuel [] = [] := by
  cases fuel with
  | zero => rfl
  | succ f => simp [minioDrain]

/-! ## Claims -/

/-- C9: for every non-negative integer size S, the blob generator returns a
byte sequence of length exactly S, whatever the random stream supplies. -/
theorem c9_generate_blob_length (rng : ℕ → ℕ) (size : ℕ) :
    (generate_blob rng size).length = size := by
  simp [generate_blob, osUrandom]

/-- C5: starting from a fresh path, any nonempty sequence of recorder calls
yields a file whose first line is exactly the literal header
`write_time,read_time,blob_size,batch_size`, followed by the concatenation of
all calls' rows in call order; the header is never written again. -/
theorem c5_recorder_header_once (c : RecCall) (cs : List RecCall) :
    runCalls none (c :: cs) =
      some (Line.header "write_time,read_time,blob_size,batch_size" ::
        ((c :: cs).map rowsOf).flatten) := by
  simp only [runCalls, save_results, runCalls_some, List.map_cons,
    List.flatten_cons, headerText, List.cons_append, List.nil_append]

/-- C6, counterexample: the claim says a field renders as `N/A` exactly when
the timing value is missing from its sequence, and that a present value is
never rendered as `N/A`. But `write_time or 'N/A'` treats the present float
`0.0` as falsy: with `write_times = [0.0]` the single row renders its present
write time as the sentinel. -/
theorem c6_counterexample_zero_is_na :
    ([(0 : ℚ)].get? 0 = some 0) ∧
    rowsOf ⟨1024, 1, [(0 : ℚ)], []⟩ =
      [Line.row ⟨Field.na, Field.na, Field.int 1024, Field.int 1⟩] := by
  constructor
  · rfl
  · simp [rowsOf, zipLongest, renderTime]

/-- C6, amended: in every row written by the result recorder, a field renders
as the literal `N/A` sentinel exactly when the corresponding timing value is
missing from its sequence **or is present and equal to zero** (the falsy-float
case); every present nonzero timing value is rendered as that numeric value. -/
theorem c6_na_iff_missing_or_zero (wts rts : List ℚ) (bs bsz : ℤ) (i : ℕ)
    (h : i < max wts.length rts.length) :
    ∃ r : Row,
      (rowsOf ⟨bs, bsz, wts, rts⟩).get? i = some (Line.row r) ∧
      (r.wt = Field.na ↔ (wts.get? i = none ∨ wts.get? i = some 0)) ∧
      (r.rt = Field.na ↔ (rts.get? i = none ∨ rts.get? i = some 0)) ∧
      (∀ q : ℚ, wts.get? i = some q → q ≠ 0 → r.wt = Field.num q) ∧
      (∀ q : ℚ, rts.get? i = some q → q ≠ 0 → r.rt = Field.num q) := by
  refine ⟨⟨renderTime (wts.get? i), renderTime (rts.get? i),
    Field.int bs, Field.int bsz⟩, ?_, ?_, ?_, ?_, ?_⟩
  · rw [rowsOf, List.get?_map, zipLongest_get? wts rts i, if_pos h]
    rfl
  · exact renderTime_eq_na (wts.get? i)
  · exact renderTime_eq_na (rts.get? i)
  · intro q hq hq0; rw [hq]; exact renderTime_nonzero q hq0
  · intro q hq hq0; rw [hq]; exact renderTime_nonzero q hq0

/-- Witness for the amended C6 at a concrete input: row 0 of a call with
`write_times = [0, 1]` and `read_times = [2]`. -/
theorem c6_na_iff_missing_or_zero_witness :
    ∃ r : Row,
      (rowsOf ⟨4, 1, [(0 : ℚ), 1], [2]⟩).get? 0 = some (Line.row r) ∧
      (r.wt = Field.na ↔
        ([(0 : ℚ), 1].get? 0 = none ∨ [(0 : ℚ), 1].get? 0 = some 0)) ∧
      (r.rt = Field.na ↔
        ([(2 : ℚ)].get? 0 = none ∨ [(2 : ℚ)].get? 0 = some 0)) ∧
      (∀ q : ℚ, [(0 : ℚ), 1].get? 0 = some q → q ≠ 0 → r.wt = Field.num q) ∧
      (∀ q : ℚ, [(2 : ℚ)].get? 0 = some q → q ≠ 0 → r.rt = Field.num q) :=
  c6_na_iff_missing_or_zero [(0 : ℚ), 1] [2] 4 1 0 (by decide)

/-- C7: with a nonempty blob-size list, if the available disk space minus the
required space `max(blob_sizes) * (batch_size + warmups)` is below the 1 GiB
safety margin, `main` returns at the space check, before constructing any
adapter; if the margin is satisfied, the space check does not abort and the
run proceeds to construct its adapters. -/
theorem c7_disk_space_gate (blob_sizes : List ℤ)
    (batch_size warmups available m : ℤ) (hm : pyMax blob_sizes = some m) :
    (available - m * (batch_size + warmups) < 2 ^ 30 →
      main blob_sizes batch_size warmups available =
        MainOutcome.insufficientSpace ∧
      adaptersConstructed (main blob_sizes batch_size warmups available) = 0) ∧
    (2 ^ 30 ≤ available - m * (batch_size + warmups) →
      main blob_sizes batch_size warmups available =
        MainOutcome.ran (2 * blob_sizes.length)) := by
  have key : main blob_sizes batch_size warmups available =
      if available - m * (batch_size + warmups) < 2 ^ 30 then
        MainOutcome.insufficientSpace
      else MainOutcome.ran (2 * blob_sizes.length) := by
    unfold main
    rw [hm]
  constructor
  · intro h
    have hmain : main blob_sizes batch_size warmups available =
        MainOutcome.insufficientSpace := by
      rw [key, if_pos h]
    exact ⟨hmain, by rw [hmain]; rfl⟩
  · intro h
    rw [key, if_neg (not_lt.mpr h)]

/-- Witness for C7 at concrete inputs: `blob_sizes = [1024]`, `batch_size =
10`, `warmups = 1`, once with no available space (abort, zero adapters) and
once with ample space (no abort). -/
theorem c7_disk_space_gate_witness :
    (main [1024] 10 1 0 = MainOutcome.insufficientSpace ∧
      adaptersConstructed (main [1024] 10 1 0) = 0) ∧
    main [1024] 10 1 (2 ^ 40) = MainOutcome.ran 2 :=
  ⟨(c7_disk_space_gate [1024] 10 1 0 1024 rfl).1 (by decide),
   (c7_disk_space_gate [1024] 10 1 (2 ^ 40) 1024 rfl).2 (by decide)⟩

/-- C4: in the batch-read loop, whenever `read_batch` returns a collection
whose length differs from `batch_size` the runner aborts with an
`AssertionError` (from `assert len(result) == batch_size`), an error kind
distinct from every backend transport/storage error; and when every
`read_batch` success returns the correct count, no assertion failure is ever
raised by the loop. -/
theorem c4_batch_count_validation {σ : Type} (sys : SysM σ) (batch_size : ℕ)
    (btm : ℕ → ℚ) (timestamps : List ℤ) :
    (∀ (i n : ℕ) (s : σ) (acc : List ℚ) (t0 : ℤ) (l : List Blob) (s1 : σ),
      timestamps.head? = some t0 →
      sys.readBatch s t0 = Except.ok (l, s1) →
      l.length ≠ batch_size →
      batchFrom sys batch_size btm timestamps i (n + 1) s acc =
        (s1, Except.error RunErr.assertionFailed, 1)) ∧
    (∀ e : ℕ, RunErr.assertionFailed ≠ RunErr.backend e) ∧
    (∀ (i n : ℕ) (s : σ) (acc : List ℚ),
      (∀ (s1 : σ) (t : ℤ) (l : List Blob) (s2 : σ),
        sys.readBatch s1 t = Except.ok (l, s2) → l.length = batch_size) →
      (batchFrom sys batch_size btm timestamps i n s acc).2.1 ≠
        Except.error RunErr.assertionFailed) := by
  refine ⟨?_, ?_, ?_⟩
  · intro i n s acc t0 l s1 ht hr hl
    obtain ⟨rest, rfl⟩ : ∃ rest, timestamps = t0 :: rest := by
      cases timestamps with
      | nil => exact absurd ht (by simp)
      | cons a rest =>
        refine ⟨rest, ?_⟩
        have ha : a = t0 := by simpa using ht
        rw [ha]
    simp only [batchFrom, List.head?_cons, hr, if_neg hl]
  · intro e h
    cases h
  · intro i n
    induction n generalizing i with
    | zero =>
      intro s acc _
      simp [batchFrom]
    | succ n ih =>
      intro s acc hok
      unfold batchFrom
      split
      · simp
      · rename_i t0 ht
        split
        · simp
        · rename_i result s1 hr
          by_cases hlen : result.length = batch_size
          · rw [if_pos hlen]
            exact fun hc => ih (i + 1) s1 (acc ++ [btm i]) hok hc
          · exact absurd (hok s t0 result s1 hr) hlen

/-- Witness for C4 at concrete inputs: the spec's scenario — `batch_size = 5`
but `read_batch` returns 4 items — aborts the trial with an assertion failure
(and 1 issued `read_batch` call); with an adapter returning 5 items per batch
the loop never raises an assertion failure. -/
theorem c4_batch_count_validation_witness :
    batchFrom fourSys 5 (fun _ => 0) [0] 0 1 () [] =
      ((), Except.error RunErr.assertionFailed, 1) ∧
    RunErr.assertionFailed ≠ RunErr.backend 0 ∧
    (batchFrom fiveSys 5 (fun _ => 0) [0] 0 2 () []).2.1 ≠
      Except.error RunErr.assertionFailed :=
  ⟨(c4_batch_count_validation fourSys 5 (fun _ => 0) [0]).1
      0 0 () [] 0 [[], [], [], []] () rfl rfl (by decide),
   (c4_batch_count_validation fourSys 5 (fun _ => 0) [0]).2.1 0,
   (c4_batch_count_validation fiveSys 5 (fun _ => 0) [0]).2.2
      0 2 () [] (fun s1 t l s2 h => by cases h; rfl)⟩

/-- C10: with `batch_size = 0` and `batch_reads ≥ 1`, once the warmup loop has
succeeded the run fails with an `IndexError` (`timestamps[0]` on the empty
timestamps list) at the first batch-read trial, before any `read_batch` call
is issued. -/
theorem c10_batch_size_zero_index_error {σ : Type} (sys : SysM σ)
    (blob_size batch_reads warmups : ℕ) (wrng brng : ℕ → ℕ → ℕ)
    (wts bts : ℕ → ℤ) (wtm rtm btm : ℕ → ℚ) (s0 s1 : σ)
    (fRW fBR : Option (List Line))
    (hw : warmupFrom sys blob_size wrng wts 0 warmups s0 = (s1, Except.ok ()))
    (hbr : 1 ≤ batch_reads) :
    (benchmarkBody sys blob_size 0 batch_reads warmups wrng brng wts bts
        wtm rtm btm s0 fRW fBR).result =
      Except.error RunErr.indexOutOfRange ∧
    (benchmarkBody sys blob_size 0 batch_reads warmups wrng brng wts bts
        wtm rtm btm s0 fRW fBR).readBatchCalls = 0 := by
  obtain ⟨n, rfl⟩ : ∃ n, batch_reads = n + 1 :=
    ⟨batch_reads - 1, (Nat.succ_pred_eq_of_pos hbr).symm⟩
  have hsingle : singleFrom sys blob_size brng bts wtm rtm 0 0 s1 [] [] [] =
      (s1, Except.ok (), [], [], []) := rfl
  have hbatch : batchFrom sys 0 btm ([] : List ℤ) 0 (n + 1) s1 [] =
      (s1, Except.error RunErr.indexOutOfRange, 0) := rfl
  constructor <;>
    simp only [benchmarkBody, hw, hsingle, hbatch]

/-- Witness for C10 at concrete inputs: the in-memory adapter, one successful
warmup run, `batch_size = 0`, one batch-read trial. -/
theorem c10_batch_size_zero_index_error_witness :
    (benchmarkBody memSys 1 0 1 1 (fun _ _ => 0) (fun _ _ => 0)
        (fun i => (i : ℤ)) (fun i => (i : ℤ)) (fun _ => 1) (fun _ => 1)
        (fun _ => 1) [] none none).result =
      Except.error RunErr.indexOutOfRange ∧
    (benchmarkBody memSys 1 0 1 1 (fun _ _ => 0) (fun _ _ => 0)
        (fun i => (i : ℤ)) (fun i => (i : ℤ)) (fun _ => 1) (fun _ => 1)
        (fun _ => 1) [] none none).readBatchCalls = 0 :=
  c10_batch_size_zero_index_error memSys 1 1 1 (fun _ _ => 0) (fun _ _ => 0)
    (fun i => (i : ℤ)) (fun i => (i : ℤ)) (fun _ => 1) (fun _ => 1)
    (fun _ => 1) [] [(0, [0])] none none rfl (by decide)

/-- C1: evaluation of the runner at a run in which every storage operation
succeeds. `benchmark_system` passes the keyword argument `verbose` to
`save_results`, whose formal parameters end in `quiet` instead, so the first
recorder call raises `TypeError` before its body runs: the run terminates with
that error and neither the `read_write` nor the `batch_read` file gains a
record, contradicting the documented side effect of persisting every raw
sample. -/
theorem c1_save_results_keyword_type_error :
    (benchmark_system memSys 1 1 1 0 (fun _ _ => 0) (fun _ _ => 0)
        (fun i => (i : ℤ)) (fun i => (i : ℤ)) (fun _ => 1) (fun _ => 1)
        (fun _ => 1) [] none none).result =
      Except.error RunErr.typeMismatch ∧
    (benchmark_system memSys 1 1 1 0 (fun _ _ => 0) (fun _ _ => 0)
        (fun i => (i : ℤ)) (fun i => (i : ℤ)) (fun _ => 1) (fun _ => 1)
        (fun _ => 1) [] none none).fileRW = none ∧
    (benchmark_system memSys 1 1 1 0 (fun _ _ => 0) (fun _ _ => 0)
        (fun i => (i : ℤ)) (fun i => (i : ℤ)) (fun _ => 1) (fun _ => 1)
        (fun _ => 1) [] none none).fileBR = none ∧
    saveResultsParams.contains "verbose" = false :=
  ⟨rfl, rfl, rfl, rfl⟩

/-- C2, counterexample: a run whose body fails with backend error 7 and whose
cleanup fails with backend error 9. The cleanup call in the `finally` block is
not guarded, so the cleanup exception propagates out of the runner, replacing
the original failure — the claim that the original exception propagates (and
that the cleanup failure is caught) is false. -/
theorem c2_counterexample_cleanup_masks :
    (benchmark_system failSys 1 1 1 1 (fun _ _ => 0) (fun _ _ => 0)
        (fun i => (i : ℤ)) (fun i => (i : ℤ)) (fun _ => 1) (fun _ => 1)
        (fun _ => 1) () none none).result =
      Except.error (RunErr.backend 9) ∧
    RunErr.backend 9 ≠ RunErr.backend 7 := by
  constructor
  · rfl
  · decide

/-- C2, amended: the runner's teardown always invokes the adapter's cleanup,
whether or not the body failed; but a cleanup failure is not caught — it
propagates out of the runner, replacing any in-flight failure. -/
theorem c2_cleanup_always_runs_and_masks {σ : Type} (sys : SysM σ)
    (blob_size batch_size batch_reads warmups : ℕ) (wrng brng : ℕ → ℕ → ℕ)
    (wts bts : ℕ → ℤ) (wtm rtm btm : ℕ → ℚ) (s0 : σ)
    (fRW fBR : Option (List Line)) :
    (benchmark_system sys blob_size batch_size batch_reads warmups wrng brng
        wts bts wtm rtm btm s0 fRW fBR).cleanupCalls = 1 ∧
    (∀ e : ℕ,
      sys.cleanup (benchmarkBody sys blob_size batch_size batch_reads warmups
        wrng brng wts bts wtm rtm btm s0 fRW fBR).sEnd = Except.error e →
      (benchmark_system sys blob_size batch_size batch_reads warmups wrng brng
        wts bts wtm rtm btm s0 fRW fBR).result =
        Except.error (RunErr.backend e)) := by
  constructor
  · rfl
  · intro e he
    simp only [benchmark_system, he]

/-- Witness for the amended C2 at a concrete input: the always-failing adapter.
Cleanup is invoked exactly once and its error 9 is what propagates. -/
theorem c2_cleanup_always_runs_and_masks_witness :
    (benchmark_system failSys 2 1 1 1 (fun _ _ => 0) (fun _ _ => 0)
        (fun i => (i : ℤ)) (fun i => (i : ℤ)) (fun _ => 1) (fun _ => 1)
        (fun _ => 1) () none none).cleanupCalls = 1 ∧
    (benchmark_system failSys 2 1 1 1 (fun _ _ => 0) (fun _ _ => 0)
        (fun i => (i : ℤ)) (fun i => (i : ℤ)) (fun _ => 1) (fun _ => 1)
        (fun _ => 1) () none none).result =
      Except.error (RunErr.backend 9) :=
  ⟨(c2_cleanup_always_runs_and_masks failSys 2 1 1 1 (fun _ _ => 0)
      (fun _ _ => 0) (fun i => (i : ℤ)) (fun i => (i : ℤ)) (fun _ => 1)
      (fun _ => 1) (fun _ => 1) () none none).1,
   (c2_cleanup_always_runs_and_masks failSys 2 1 1 1 (fun _ _ => 0)
      (fun _ _ => 0) (fun i => (i : ℤ)) (fun i => (i : ℤ)) (fun _ => 1)
      (fun _ => 1) (fun _ => 1) () none none).2 9 rfl⟩

/-- C3, counterexample: the claim quantifies over *every* timestamp. All the
listed `read_last` implementations return the record with the maximal stored
timestamp, not the most recently written one: writing a blob at timestamp 5 s
into a TimescaleDB table already holding a row at 10 s succeeds, yet the
immediate `read_last` returns the older row's blob. -/
theorem c3_counterexample_stale_timestamp :
    timescaleReadLast
      (timescaleWrite (timescaleWrite ⟨[]⟩ [0] 10000000000) [1] 5000000000) =
      some [0] ∧ ([0] : Blob) ≠ [1] := by
  constructor
  · have hlt : ¬ tsSeconds 10000000000 < tsSeconds 5000000000 := by
      norm_num [tsSeconds]
    show (latest (([] ++ [(tsSeconds 10000000000, [0])]) ++
        [(tsSeconds 5000000000, [1])])).map (fun r => r.2) = some [0]
    simp only [List.nil_append, List.singleton_append, latest,
      List.foldl_cons, List.foldl_nil, latestStep]
    rw [if_neg hlt]
    rfl
  · decide

/-- C3, amended: after a successful `write(blob, timestamp)` whose timestamp
is strictly greater than every timestamp already stored, an immediate
`read_last()` with no intervening writes returns bytes equal to `blob` — for
the TimescaleDB adapter, for the MongoDB adapter (given GridFS ids are fresh,
as its own id counter guarantees), and for the InfluxDB+Minio adapter (given
additionally that the new object name is unused in Minio and the query is
issued within the 10-second Flux window). -/
theorem c3_read_last_returns_fresh_write :
    (∀ (s : TimescaleState) (blob : Blob) (ns : ℤ),
      (∀ r ∈ s.rows, r.1 < tsSeconds ns) →
      timescaleReadLast (timescaleWrite s blob ns) = some blob) ∧
    (∀ (s : MongoState) (blob : Blob) (ns : ℤ),
      (∀ d ∈ s.docs, d.1 < tsSeconds ns) →
      (∀ f ∈ s.fsFiles, f.1 ≠ s.nextId) →
      mongoReadLast (mongoWrite s blob ns) = some blob) ∧
    (∀ (s : SystemTwoState) (blob : Blob) (ns now : ℤ),
      (∀ p ∈ s.influx, p.1 < ns) →
      (∀ o ∈ s.minio, o.1 ≠ toString ns) →
      now - 10000000000 ≤ ns → ns < now →
      systemTwoReadLast (systemTwoWrite s blob ns) now = some blob) := by
  refine ⟨?_, ?_, ?_⟩
  · intro s blob ns h
    show (latest (s.rows ++ [(tsSeconds ns, blob)])).map (fun r => r.2) =
      some blob
    rw [latest_append_gt _ _ _ h]
    rfl
  · intro s blob ns hdocs hfresh
    have hne : s.docs ++ [(tsSeconds ns, s.nextId)] ≠ [] := by simp
    show (if s.docs ++ [(tsSeconds ns, s.nextId)] = [] then some [] else
        (latest (s.docs ++ [(tsSeconds ns, s.nextId)])).bind
          (fun d => assocFind d.2 (s.fsFiles ++ [(s.nextId, blob)]))) =
      some blob
    rw [if_neg hne, latest_append_gt _ _ _ hdocs]
    exact assocFind_append_fresh _ _ _ hfresh
  · intro s blob ns now hinflux hminio h10 hnow
    have hinfresh : ∀ p ∈ s.influx, p.1 ≠ ns :=
      fun p hp => ne_of_lt (hinflux p hp)
    simp only [systemTwoReadLast, systemTwoWrite,
      upsert_fresh _ _ _ hminio, upsert_fresh _ _ _ hinfresh]
    have hfilter : (s.influx ++ [(ns, toString ns)]).filter
        (fun p => decide (now - 10000000000 ≤ p.1 ∧ p.1 < now)) =
        s.influx.filter
          (fun p => decide (now - 10000000000 ≤ p.1 ∧ p.1 < now)) ++
          [(ns, toString ns)] := by
      rw [List.filter_append]
      congr 1
      simp only [List.filter_cons, List.filter_nil, decide_eq_true_eq]
      rw [if_pos ⟨h10, hnow⟩]
    rw [hfilter, List.map_append]
    have hlt : ∀ p ∈ (s.influx.filter
        (fun p => decide (now - 10000000000 ≤ p.1 ∧ p.1 < now))).map
          (fun p => ((p.1 : ℚ), p.2)), p.1 < ((ns : ℤ) : ℚ) := by
      intro p hp
      obtain ⟨q, hq, rfl⟩ := List.mem_map.mp hp
      have hq' : q ∈ s.influx := (List.mem_filter.mp hq).1
      have hcast : (q.1 : ℚ) < ((ns : ℤ) : ℚ) := by
        exact_mod_cast hinflux q hq'
      exact hcast
    rw [show (([(ns, toString ns)] : List (ℤ × String)).map
        (fun p => ((p.1 : ℚ), p.2))) = [(((ns : ℤ) : ℚ), toString ns)]
      from rfl]
    rw [latest_append_gt _ _ _ hlt]
    exact assocFind_append_fresh _ _ _ hminio

/-- Witness for the amended C3 at concrete inputs: a fresh write into each of
the three (initially empty) backends is returned by the immediate `read_last`. -/
theorem c3_read_last_returns_fresh_write_witness :
    timescaleReadLast (timescaleWrite ⟨[]⟩ [5] 1000000000) = some [5] ∧
    mongoReadLast (mongoWrite ⟨[], [], 0⟩ [6] 1000000000) = some [6] ∧
    systemTwoReadLast (systemTwoWrite ⟨[], []⟩ [7] 1000000000) 2000000000 =
      some [7] :=
  ⟨c3_read_last_returns_fresh_write.1 ⟨[]⟩ [5] 1000000000 (by simp),
   c3_read_last_returns_fresh_write.2.1 ⟨[], [], 0⟩ [6] 1000000000
     (by simp) (by simp),
   c3_read_last_returns_fresh_write.2.2 ⟨[], []⟩ [7] 1000000000 2000000000
     (by simp) (by simp) (by decide) (by decide)⟩

/-- C8: the cleanup of both object-store-plus-index adapters enumerates the
Minio object store itself (never the InfluxDB index), so from *any* state —
including states holding orphaned objects absent from the index — every object
in the bucket has been removed when cleanup returns. For the retrying variant
(`influxdb_minio.py`) any positive amount of loop fuel suffices, since a
single list-and-remove pass already empties the store. -/
theorem c8_cleanup_removes_all_objects :
    (∀ s : SystemTwoState, (systemTwoCleanup s).minio = []) ∧
    (∀ (st : List (String × Blob)) (fuel : ℕ), 1 ≤ fuel →
      minioDrain fuel st = []) := by
  constructor
  · intro s
    show (s.minio.map (fun o => o.1)).foldl
      (fun acc name => acc.filter (fun o => o.1 ≠ name)) s.minio = []
    exact remove_all_self s.minio
  · intro st fuel hf
    obtain ⟨f, rfl⟩ : ∃ f, fuel = f + 1 :=
      ⟨fuel - 1, (Nat.succ_pred_eq_of_pos hf).symm⟩
    cases st with
    | nil => exact minioDrain_nil (f + 1)
    | cons a t =>
      show minioDrain f
        (((a :: t).map (fun o => o.1)).foldl
          (fun acc name => acc.filter (fun o => o.1 ≠ name)) (a :: t)) = []
      rw [remove_all_self]
      exact minioDrain_nil f

/-- Witness for C8 at concrete inputs: a bucket holding an orphan (an object
with no index entry) is emptied by `SystemTwo.cleanup`, and a two-object
bucket is emptied by the retrying drain with fuel 3. -/
theorem c8_cleanup_removes_all_objects_witness :
    (systemTwoCleanup ⟨[("100", [7])], []⟩).minio = [] ∧
    minioDrain 3 [("100", [7]), ("200", [8])] = [] :=
  ⟨c8_cleanup_removes_all_objects.1 ⟨[("100", [7])], []⟩,
   c8_cleanup_removes_all_objects.2 [("100", [7]), ("200", [8])] 3
     (by decide)⟩

end Benchmark
